import Mathlib

/-!
Verification of the 0xio SDK communication and wallet facade layers.

The definitions below are a shallow embedding of the TypeScript sources:
`src/communication.ts` (ExtensionCommunicator), `src/wallet.ts`
(ZeroXIOWallet facade), `src/utils.ts` (retry), `src/config/index.ts`
(createDefaultBalance) and `src/types.ts` (wire types).  Stateful methods
become explicit state-passing functions; promise settlement is represented
by an explicit `Settlement` value; emitted events are returned as lists.
Numeric balance amounts are embedded as rationals (the TS code uses
parseFloat numbers; the claims in question are algebraic, not
float-rounding, properties).  Opaque `any` payloads are embedded as
strings.
-/

namespace Oxio

/-- Opaque request parameter payload (TS `any`). -/
abbrev Params := String

/-- Opaque response data payload (TS `any`). -/
abbrev RespData := String

/-- `ErrorCode` enum from src/types.ts. -/
inductive ErrorCode where
  | EXTENSION_NOT_FOUND
  | CONNECTION_REFUSED
  | USER_REJECTED
  | INSUFFICIENT_BALANCE
  | INVALID_ADDRESS
  | INVALID_AMOUNT
  | NETWORK_ERROR
  | TRANSACTION_FAILED
  | SIGNATURE_FAILED
  | PERMISSION_DENIED
  | WALLET_LOCKED
  | RATE_LIMIT_EXCEEDED
  | UNKNOWN_ERROR
deriving DecidableEq, Repr

/-- Browser environment facts sampled by the communicator
(`typeof window`, `window.postMessage`, extension-injected signals). -/
structure Env where
  hasWindow : Bool
  hasPostMessage : Bool
  signals : Bool
deriving DecidableEq, Repr

/-- `hasExtensionContext` from src/communication.ts. -/
def hasExtensionContext (env : Env) : Bool :=
  env.hasWindow && env.hasPostMessage

/-- Shape of `getExtensionDiagnostics` from src/communication.ts. -/
structure Diagnostics where
  initialized : Bool
  available : Bool
  pendingRequests : Nat
  hasExtensionContext : Bool
deriving DecidableEq, Repr

/-- Structured error context attached to `ZeroXIOWalletError` values;
each construction site fills the fields it passes in the source. -/
structure ErrorDetails where
  method : Option String := none
  params : Option Params := none
  requestId : Option String := none
  retryCount : Option Nat := none
  timestamp : Option Nat := none
  extensionState : Option Diagnostics := none
  browserContext : Bool := false
  peerDetails : Option RespData := none
deriving DecidableEq, Repr

/-- `ZeroXIOWalletError` from src/types.ts. -/
structure WalletError where
  code : ErrorCode
  message : String
  details : Option ErrorDetails := none
deriving DecidableEq, Repr

/-- Error member of an `ExtensionResponse` (peer-reported failure). -/
structure RespError where
  code : ErrorCode
  message : String
  details : Option RespData := none
deriving DecidableEq, Repr

/-- `ExtensionResponse` wire record from src/types.ts. -/
structure ExtensionResponse where
  id : String
  success : Bool
  data : Option RespData := none
  error : Option RespError := none
  timestamp : Nat := 0
deriving DecidableEq, Repr

/-- `ExtensionRequest` wire record from src/types.ts. -/
structure OutboundRequest where
  id : String
  method : String
  params : Params
  timestamp : Nat
deriving DecidableEq, Repr

/-- One entry of the `pendingRequests` map: the stored retry counter and
the live timeout handle (the resolve/reject continuations are represented
by the `Settlement` values the step functions return). -/
structure PendingEntry where
  timeout : Nat := 0
  retryCount : Nat := 0
deriving DecidableEq, Repr

/-- Mutable state of `ExtensionCommunicator`.  `listeners` stands for the
subscription table of the inherited EventEmitter. -/
structure CommState where
  pendingRequests : List (String × PendingEntry) := []
  isInitialized : Bool := false
  isExtensionAvailableState : Bool := false
  requestTimestamps : List Nat := []
  extensionDetectionInterval : Option Nat := none
  listeners : List String := []
deriving DecidableEq, Repr

/-- Keys currently present in the pending map. -/
def keys (s : CommState) : List String :=
  s.pendingRequests.map Prod.fst

/-- `pendingRequests.get(id)`. -/
def lookupPending (s : CommState) (id : String) : Option PendingEntry :=
  (s.pendingRequests.find? (fun p => p.1 == id)).map Prod.snd

/-- `pendingRequests.delete(id)`. -/
def erasePending (s : CommState) (id : String) : CommState :=
  { s with pendingRequests := s.pendingRequests.filter (fun p => !(p.1 == id)) }

/-- `getExtensionDiagnostics` from src/communication.ts. -/
def getExtensionDiagnostics (env : Env) (s : CommState) : Diagnostics :=
  { initialized := s.isInitialized
    available := s.isExtensionAvailableState
    pendingRequests := s.pendingRequests.length
    hasExtensionContext := hasExtensionContext env }

/-- Rate limit constants from src/communication.ts. -/
def MAX_CONCURRENT_REQUESTS : Nat := 50

/-- Trailing window length for frequency limiting (ms). -/
def RATE_LIMIT_WINDOW : Nat := 1000

/-- Maximum admissions per trailing window. -/
def MAX_REQUESTS_PER_WINDOW : Nat := 20

/-- `checkRateLimit` from src/communication.ts: first the concurrency
ceiling, then the frequency ceiling over the pruned timestamp list; on
admission the current timestamp is recorded.  The returned state reflects
the mutation of `requestTimestamps` performed before a frequency throw. -/
def checkRateLimit (now : Nat) (s : CommState) : CommState × Option WalletError :=
  if MAX_CONCURRENT_REQUESTS ≤ s.pendingRequests.length then
    (s, some { code := ErrorCode.RATE_LIMIT_EXCEEDED
               message := "Too many concurrent requests (max: " ++
                 toString MAX_CONCURRENT_REQUESTS ++ ")" })
  else
    let ts := s.requestTimestamps.filter (fun t => decide (now - t < RATE_LIMIT_WINDOW))
    if MAX_REQUESTS_PER_WINDOW ≤ ts.length then
      ({ s with requestTimestamps := ts },
       some { code := ErrorCode.RATE_LIMIT_EXCEEDED
              message := "Too many requests per second (max: " ++
                toString MAX_REQUESTS_PER_WINDOW ++ " per " ++
                toString RATE_LIMIT_WINDOW ++ "ms)" })
    else
      ({ s with requestTimestamps := ts ++ [now] }, none)

/-- The outcome of firing a resolve or reject continuation of one pending
request. -/
inductive Settlement where
  | resolved (id : String) (data : Option RespData)
  | rejected (id : String) (e : WalletError)
deriving DecidableEq, Repr

/-- Request id a settlement belongs to. -/
def Settlement.sid : Settlement → String
  | .resolved id _ => id
  | .rejected id _ => id

/-- Warning log emitted by `handleExtensionResponse` for unmatched ids. -/
inductive WarnLog where
  | unknownRequestId (id : String)
deriving DecidableEq, Repr

/-- `handleExtensionResponse` from src/communication.ts: look up the id;
if absent, log and discard; otherwise clear the timeout, delete the
entry, and resolve on success or reject with the (enhanced) peer error. -/
def handleExtensionResponse (env : Env) (now : Nat) (s : CommState)
    (r : ExtensionResponse) : CommState × Option Settlement × Option WarnLog :=
  match lookupPending s r.id with
  | none => (s, none, some (WarnLog.unknownRequestId r.id))
  | some pending =>
    let s' := erasePending s r.id
    if r.success then
      (s', some (Settlement.resolved r.id r.data), none)
    else
      match r.error with
      | some e =>
        (s', some (Settlement.rejected r.id
          { code := e.code
            message := e.message
            details := some { peerDetails := e.details
                              requestId := some r.id
                              retryCount := some pending.retryCount
                              timestamp := some now
                              extensionState := some (getExtensionDiagnostics env s) } }),
         none)
      | none =>
        (s', some (Settlement.rejected r.id
          { code := ErrorCode.UNKNOWN_ERROR
            message := "Unknown error occurred"
            details := some { requestId := some r.id
                              retryCount := some pending.retryCount
                              extensionState := some (getExtensionDiagnostics env s) } }),
         none)

/-- Per-call default of the `timeout` parameter of `sendRequest` and
`sendRequestWithRetry` in src/communication.ts. -/
def SENDREQUEST_DEFAULT_TIMEOUT : Nat := 30000

/-- The timeout callback registered in `sendRequestWithRetry`
(src/communication.ts lines 218 to 234): on expiry with the request still
pending, the entry is deleted and the caller promise is rejected with the
timeout error carrying method, params, request id, stored retry count and
the current extension diagnostics. -/
def timeoutFire (env : Env) (s : CommState) (requestId method : String)
    (params : Params) (timeout : Nat) : CommState × Option Settlement :=
  match lookupPending s requestId with
  | none => (s, none)
  | some pending =>
    (erasePending s requestId,
     some (Settlement.rejected requestId
       { code := ErrorCode.NETWORK_ERROR
         message := "Request timeout after " ++ toString timeout ++ "ms"
         details := some { method := some method
                           params := some params
                           requestId := some requestId
                           retryCount := some pending.retryCount
                           extensionState := some (getExtensionDiagnostics env s) } }))

/-- The terminal error used by `cleanup` to reject outstanding requests. -/
def cleanupError : WalletError :=
  { code := ErrorCode.UNKNOWN_ERROR, message := "SDK cleanup called" }

/-- Modelled from the spec: the EventEmitter component lives in the
events module, which is not among the provided sources; per the spec its
`removeAllListeners` drops every subscription. -/
def removeAllListeners (_ls : List String) : List String := []

/-- `cleanup` of `ExtensionCommunicator` (src/communication.ts lines 569
to 591): clears the detection interval, clears each pending timer and
rejects the entry with `cleanupError`, empties the map, resets the
initialization and availability flags and drops all listeners.
`requestTimestamps` is not touched by the source. -/
def communicatorCleanup (s : CommState) : CommState × List Settlement :=
  ({ pendingRequests := []
     isInitialized := false
     isExtensionAvailableState := false
     requestTimestamps := s.requestTimestamps
     extensionDetectionInterval := none
     listeners := removeAllListeners s.listeners },
   s.pendingRequests.map (fun p => Settlement.rejected p.1 cleanupError))

/-- Number of live timers owned by the communicator: one per pending
request plus the detection interval when active. -/
def activeTimerCount (s : CommState) : Nat :=
  s.pendingRequests.length + (if s.extensionDetectionInterval.isSome then 1 else 0)

/-- The availability flag observed after `waitForExtensionAvailability`:
the flag can only flip to true while the detection interval is running
(`checkExtensionAvailability` samples `hasExtensionContext` and the
extension signals on that interval). -/
def availabilityAfterWait (env : Env) (s : CommState) : Bool :=
  s.isExtensionAvailableState ||
    (s.extensionDetectionInterval.isSome && hasExtensionContext env && env.signals)

/-- Trace of the observable side effects of one `sendRequestWithRetry`
call: how many times admission control ran, which requests were written
to the transport (in order), and which backoff delays were awaited. -/
structure CallTrace where
  rateChecks : Nat
  dispatched : List OutboundRequest
  delays : List Nat
deriving DecidableEq, Repr

/-- The attempt loop of `retry` (src/utils.ts lines 215 to 239) as
instantiated inside `sendRequestWithRetry`: attempt number `attempt` runs
with `countdown` further attempts allowed after it.  Each attempt draws a
fresh identifier from `idSupply`, dispatches one request, and either
succeeds, retries after a delay of `baseDelay * 2 ^ attempt`, or (when no
attempts remain) surfaces its own failure. -/
def attemptsGo (idSupply : Nat → String)
    (outcome : Nat → Except WalletError RespData)
    (method : String) (params : Params) (now baseDelay : Nat) :
    Nat → Nat → Except WalletError RespData × List OutboundRequest × List Nat
  | attempt, 0 =>
    (outcome attempt, [{ id := idSupply attempt, method := method,
                         params := params, timestamp := now }], [])
  | attempt, countdown + 1 =>
    match outcome attempt with
    | Except.ok a =>
      (Except.ok a, [{ id := idSupply attempt, method := method,
                       params := params, timestamp := now }], [])
    | Except.error _ =>
      let rest := attemptsGo idSupply outcome method params now baseDelay
        (attempt + 1) countdown
      (rest.1,
       { id := idSupply attempt, method := method,
         params := params, timestamp := now } :: rest.2.1,
       baseDelay * 2 ^ attempt :: rest.2.2)

/-- `sendRequestWithRetry` from src/communication.ts: extension-context
guard, bounded availability wait, one synchronous admission-control check,
then the retry loop with base delay 1000 ms.  `outcome` gives the fate of
each numbered attempt (response or timeout rejection of its promise);
`idSupply` is the stream of generated request identifiers. -/
def sendRequestWithRetryModel (env : Env) (now : Nat) (s : CommState)
    (method : String) (params : Params) (maxRetries _timeout : Nat)
    (idSupply : Nat → String)
    (outcome : Nat → Except WalletError RespData) :
    Except WalletError RespData × CommState × CallTrace :=
  if ¬ hasExtensionContext env then
    (Except.error
      { code := ErrorCode.EXTENSION_NOT_FOUND
        message := "0xio Wallet extension is not installed or available"
        details := some { method := some method, params := some params,
                          browserContext := true } },
     s, { rateChecks := 0, dispatched := [], delays := [] })
  else if ¬ availabilityAfterWait env s then
    (Except.error
      { code := ErrorCode.EXTENSION_NOT_FOUND
        message := "Extension not available for communication"
        details := some { method := some method, params := some params,
                          extensionState := some (getExtensionDiagnostics env s) } },
     s, { rateChecks := 0, dispatched := [], delays := [] })
  else
    match checkRateLimit now s with
    | (s', some e) =>
      (Except.error e, s', { rateChecks := 1, dispatched := [], delays := [] })
    | (s', none) =>
      let r := attemptsGo idSupply outcome method params now 1000 0 maxRetries
      (r.1, s', { rateChecks := 1, dispatched := r.2.1, delays := r.2.2 })

/-- An unsolicited event notification from the extension
(`event.data.event` in the listener). -/
structure ExtEvent where
  type : String
  data : Option RespData := none
deriving DecidableEq, Repr

/-- `data` member of a window message possibly addressed to the SDK. -/
structure MessageData where
  source : Option String := none
  response : Option ExtensionResponse := none
  event : Option ExtEvent := none
deriving DecidableEq, Repr

/-- A window `message` event as observed by the listener: its origin,
whether `event.source` is the same window, and its payload. -/
structure MessageEvent where
  origin : String
  sourceIsSameWindow : Bool
  data : Option MessageData := none
deriving DecidableEq, Repr

/-- Expected marker on `data.source` for inbound SDK traffic. -/
def BRIDGE_MARKER : String := "octra-sdk-bridge"

/-- Which branch of the listener a message ended in. -/
inductive ListenerOutcome where
  | blockedOrigin
  | blockedSource
  | blockedMarker
  | routedResponse
  | routedEvent
  | ignored
deriving DecidableEq, Repr

/-- Whether the message carries the expected SDK source marker
(`event.data && event.data.source === BRIDGE_MARKER`). -/
def hasSdkMarker (m : MessageEvent) : Bool :=
  match m.data with
  | none => false
  | some d => d.source == some BRIDGE_MARKER

/-- A domain event emission `emit(type, data)`. -/
structure EmittedEvent where
  type : String
  data : Option RespData := none
deriving DecidableEq, Repr

/-- The window message listener installed by `setupMessageListener`
(src/communication.ts lines 253 to 291): gate on origin, then on source
window, then on the SDK marker; a surviving message with a response
member that has a nonempty id is handed to `handleExtensionResponse`,
one with an event member is forwarded by `handleExtensionEvent`. -/
def onWindowMessage (env : Env) (now : Nat) (allowedOrigin : String)
    (s : CommState) (m : MessageEvent) :
    CommState × Option Settlement × Option EmittedEvent × ListenerOutcome :=
  if ¬ (m.origin == allowedOrigin) then
    (s, none, none, ListenerOutcome.blockedOrigin)
  else if ¬ m.sourceIsSameWindow then
    (s, none, none, ListenerOutcome.blockedSource)
  else if ¬ hasSdkMarker m then
    (s, none, none, ListenerOutcome.blockedMarker)
  else
    match m.data with
    | none => (s, none, none, ListenerOutcome.ignored)
    | some d =>
      match d.response with
      | some resp =>
        if resp.id == "" then
          (s, none, none, ListenerOutcome.ignored)
        else
          let r := handleExtensionResponse env now s resp
          (r.1, r.2.1, none, ListenerOutcome.routedResponse)
      | none =>
        match d.event with
        | some ev =>
          (s, none, some { type := ev.type, data := ev.data },
           ListenerOutcome.routedEvent)
        | none => (s, none, none, ListenerOutcome.ignored)

/-- The ways a registered pending entry can be acted upon after
registration: an inbound response for some id, expiry of the timeout of
some id, or global cleanup. -/
inductive CorrEvent where
  | response (now : Nat) (r : ExtensionResponse)
  | timerFired (requestId method : String) (params : Params) (timeout : Nat)
  | cleanupEv
deriving Repr

/-- One correlator step: the state change and the settlements it fires. -/
def corrStep (env : Env) (s : CommState) : CorrEvent → CommState × List Settlement
  | CorrEvent.response now r =>
    let h := handleExtensionResponse env now s r
    (h.1, h.2.1.toList)
  | CorrEvent.timerFired requestId method params timeout =>
    let h := timeoutFire env s requestId method params timeout
    (h.1, h.2.toList)
  | CorrEvent.cleanupEv =>
    communicatorCleanup s

/-- Run a sequence of correlator events, accumulating settlements. -/
def runEvents (env : Env) (s : CommState) : List CorrEvent → CommState × List Settlement
  | [] => (s, [])
  | e :: evs =>
    let r := corrStep env s e
    let r2 := runEvents env r.1 evs
    (r2.1, r.2 ++ r2.2)

/-- How many settlements in `l` belong to request id `id`. -/
def settlementsFor (id : String) (l : List Settlement) : Nat :=
  l.countP (fun st => st.sid == id)

/-- One when `id` is registered in the pending map, zero otherwise. -/
def pendingFlag (s : CommState) (id : String) : Nat :=
  if id ∈ keys s then 1 else 0

/-- `Balance` from src/types.ts; amounts as rationals. -/
structure Balance where
  «public» : Rat
  «private» : Rat
  total : Rat
  currency : String
deriving DecidableEq, Repr

/-- `createDefaultBalance` from src/config/index.ts. -/
def createDefaultBalance (total : Rat := 0) : Balance :=
  { total := total
    «public» := total
    «private» := 0
    currency := "OCT" }

/-- `NetworkInfo` from src/types.ts. -/
structure NetworkInfo where
  id : String
  name : String
  rpcUrl : String
  explorerUrl : Option String := none
  color : String
  isTestnet : Bool
deriving DecidableEq, Repr

/-- `ConnectionInfo` cached by the facade (src/types.ts). -/
structure ConnectionInfo where
  isConnected : Bool
  address : Option String := none
  publicKey : Option String := none
  balance : Option Balance := none
  networkInfo : Option NetworkInfo := none
  connectedAt : Option Nat := none
deriving DecidableEq, Repr

/-- `ConnectEvent` payload from src/types.ts. -/
structure ConnectEvent where
  address : String
  publicKey : Option String := none
  balance : Balance
  networkInfo : NetworkInfo
  permissions : List String := []
deriving DecidableEq, Repr

/-- `BalanceChangedEvent` payload from src/types.ts. -/
structure BalanceChangedEvent where
  address : Option String
  previousBalance : Option Balance
  newBalance : Balance
deriving DecidableEq, Repr

/-- Typed domain events the facade emits. -/
inductive FacadeEvent where
  | connectEv (e : ConnectEvent)
  | disconnectEv (reason : String)
  | balanceChangedEv (e : BalanceChangedEvent)
deriving DecidableEq, Repr

/-- Mutable state of the `ZeroXIOWallet` facade; `listeners` stands for
the subscription table of its inherited EventEmitter. -/
structure FacadeState where
  isInitialized : Bool := false
  connectionInfo : ConnectionInfo := { isConnected := false }
  listeners : List String := []
deriving DecidableEq, Repr

/-- An error propagated out of an awaited communicator call: either a
typed `ZeroXIOWalletError` or some other thrown value. -/
inductive ThrownError where
  | walletErr (e : WalletError)
  | otherErr (msg : String)
deriving DecidableEq, Repr

/-- The result payload of a successful `connect` peer call. -/
structure ConnectResult where
  address : String
  publicKey : Option String := none
  balance : Balance
  networkInfo : NetworkInfo
  permissions : List String := []
deriving DecidableEq, Repr

/-- The error thrown by `ensureInitialized` (part of wallet.ts). -/
def notInitializedError : WalletError :=
  { code := ErrorCode.UNKNOWN_ERROR
    message := "SDK not initialized. Call initialize() first." }

/-- The error thrown by `ensureConnected` (part of wallet.ts). -/
def notConnectedError : WalletError :=
  { code := ErrorCode.CONNECTION_REFUSED
    message := "Wallet not connected. Call connect() first." }

/-- `connect` from wallet.ts (lines 1547 to 1595 of the sources):
`ensureInitialized`, then the peer call whose outcome is `res`; on
success the cached ConnectionInfo is rebuilt wholesale from the result
and a `connect` event is emitted; on failure the cache is untouched and
a `ZeroXIOWalletError` is rethrown or wrapped as `CONNECTION_REFUSED`. -/
def connectModel (st : FacadeState) (now : Nat)
    (res : Except ThrownError ConnectResult) :
    FacadeState × List FacadeEvent × Except WalletError ConnectEvent :=
  if ¬ st.isInitialized then
    (st, [], Except.error notInitializedError)
  else
    match res with
    | Except.ok r =>
      let ci : ConnectionInfo :=
        { isConnected := true
          address := some r.address
          publicKey := r.publicKey
          balance := some r.balance
          networkInfo := some r.networkInfo
          connectedAt := some now }
      let ev : ConnectEvent :=
        { address := r.address
          publicKey := r.publicKey
          balance := r.balance
          networkInfo := r.networkInfo
          permissions := r.permissions }
      ({ st with connectionInfo := ci }, [FacadeEvent.connectEv ev], Except.ok ev)
    | Except.error (ThrownError.walletErr e) =>
      (st, [], Except.error e)
    | Except.error (ThrownError.otherErr _) =>
      (st, [], Except.error { code := ErrorCode.CONNECTION_REFUSED
                              message := "Failed to connect to wallet" })

/-- `getBalance` from wallet.ts (lines 1697 to 1750 of the sources):
`ensureConnected`, address presence, then the extension fetch whose
outcome is `extRes` (public and private amounts); on success the result
balance is built with `total = public + private`, always replaces the
cache, and a `balanceChanged` event fires only when a previous cached
balance exists and its total differs; every failure is wrapped as
`NETWORK_ERROR`. -/
def getBalanceModel (st : FacadeState)
    (extRes : Except ThrownError (Rat × Rat)) :
    FacadeState × List FacadeEvent × Except WalletError Balance :=
  if ¬ st.isInitialized then
    (st, [], Except.error notInitializedError)
  else if ¬ st.connectionInfo.isConnected then
    (st, [], Except.error notConnectedError)
  else
    match st.connectionInfo.address with
    | none =>
      (st, [], Except.error { code := ErrorCode.NETWORK_ERROR
                              message := "Failed to get balance" })
    | some _ =>
      match extRes with
      | Except.error _ =>
        (st, [], Except.error { code := ErrorCode.NETWORK_ERROR
                                message := "Failed to get balance" })
      | Except.ok (pub, priv) =>
        let result : Balance :=
          { «public» := pub, «private» := priv,
            total := pub + priv, currency := "OCT" }
        match st.connectionInfo.balance with
        | some previousBalance =>
          let st' :=
            { st with connectionInfo :=
                { st.connectionInfo with balance := some result } }
          if previousBalance.total ≠ result.total then
            (st',
             [FacadeEvent.balanceChangedEv
               { address := st.connectionInfo.address
                 previousBalance := some previousBalance
                 newBalance := result }],
             Except.ok result)
          else
            (st', [], Except.ok result)
        | none =>
          ({ st with connectionInfo :=
               { st.connectionInfo with balance := some result } },
           [], Except.ok result)

/-- `handleBalanceChanged` from wallet.ts (lines 2141 to 2154 of the
sources): a peer-originated balance push unconditionally replaces the
cached balance and emits one `balanceChanged` event, with no diff. -/
def handleBalanceChangedModel (st : FacadeState) (newBalance : Balance) :
    FacadeState × List FacadeEvent :=
  ({ st with connectionInfo :=
       { st.connectionInfo with balance := some newBalance } },
   [FacadeEvent.balanceChangedEv
     { address := st.connectionInfo.address
       previousBalance := st.connectionInfo.balance
       newBalance := newBalance }])

/-- `handleExtensionLocked` from wallet.ts (lines 2159 to 2169 of the
sources): reset the cache to the disconnected baseline and emit one
`disconnect` event with reason extension_locked, with no diff. -/
def handleExtensionLockedModel (st : FacadeState) :
    FacadeState × List FacadeEvent :=
  ({ st with connectionInfo := { isConnected := false } },
   [FacadeEvent.disconnectEv "extension_locked"])

/-- The disconnected baseline ConnectionInfo `\x7b isConnected: false \x7d`. -/
def disconnectedBaseline : ConnectionInfo := { isConnected := false }

/-- `cleanup` of `ZeroXIOWallet` (wallet.ts lines 2205 to 2216 of the
sources): tear down the communicator (rejecting its pending entries),
drop the facade listeners, reset the cache and the initialized flag. -/
def facadeCleanupModel (fs : FacadeState) (cs : CommState) :
    FacadeState × CommState × List Settlement :=
  let c := communicatorCleanup cs
  ({ isInitialized := false
     connectionInfo := { isConnected := false }
     listeners := removeAllListeners fs.listeners },
   c.1, c.2)

/-! ## Helper lemmas -/

lemma lookupPending_erase (s : CommState) (id : String) :
    lookupPending (erasePending s id) id = none := by
  unfold lookupPending erasePending
  simp only [Option.map_eq_none', List.find?_eq_none, List.mem_filter]
  intro x hx
  simpa using hx.2

lemma lookupPending_eq_none_iff (s : CommState) (id : String) :
    lookupPending s id = none ↔ id ∉ keys s := by
  unfold lookupPending keys
  simp only [Option.map_eq_none', List.find?_eq_none, List.mem_map, beq_iff_eq]
  constructor
  · rintro h ⟨p, hp, rfl⟩
    exact h p hp rfl
  · intro h p hp hpe
    exact h ⟨p, hp, hpe⟩

lemma pendingFlag_le_one (s : CommState) (id : String) : pendingFlag s id ≤ 1 := by
  unfold pendingFlag
  split <;> omega

/-! ## C7: extension lock collapses state and emits one disconnect -/

/-- C7: receiving an extensionLocked notification while connected resets
the cached connection state to the disconnected baseline (isConnected
false, every other field absent) and emits exactly one disconnect event
with reason extension_locked, unconditionally and with no diff against
the previous state. -/
theorem extension_locked_disconnect (st : FacadeState)
    (hconn : st.connectionInfo.isConnected = true) :
    (handleExtensionLockedModel st).1.connectionInfo = disconnectedBaseline ∧
    disconnectedBaseline = ⟨false, none, none, none, none, none⟩ ∧
    (handleExtensionLockedModel st).2 =
      [FacadeEvent.disconnectEv "extension_locked"] := by
  refine ⟨rfl, rfl, rfl⟩

/-- A concrete connected facade state used by witnesses. -/
def stConnected : FacadeState :=
  { isInitialized := true
    connectionInfo :=
      { isConnected := true
        address := some "oct1w"
        balance := some (createDefaultBalance 5) } }

theorem extension_locked_disconnect_witness :
    (handleExtensionLockedModel stConnected).1.connectionInfo
      = disconnectedBaseline ∧
    disconnectedBaseline = ⟨false, none, none, none, none, none⟩ ∧
    (handleExtensionLockedModel stConnected).2 =
      [FacadeEvent.disconnectEv "extension_locked"] :=
  extension_locked_disconnect stConnected rfl

/-! ## C10: SDK-built balances satisfy total = public + private -/

/-- C10: every Balance the SDK itself constructs satisfies
total = public + private with currency OCT: `createDefaultBalance total`
is exactly the record with public = total, private = 0, and any balance
successfully returned by `getBalanceModel` sums its components. -/
theorem balance_sum_invariant (total pub priv : Rat) (st : FacadeState)
    (htotal : 0 ≤ total) :
    createDefaultBalance total =
      { total := total, «public» := total, «private» := 0, currency := "OCT" } ∧
    (createDefaultBalance total).«public» + (createDefaultBalance total).«private»
      = (createDefaultBalance total).total ∧
    (∀ b : Balance,
      (getBalanceModel st (Except.ok (pub, priv))).2.2 = Except.ok b →
      b.«public» + b.«private» = b.total ∧ b.currency = "OCT") := by
  refine ⟨rfl, by simp [createDefaultBalance], ?_⟩
  intro b hb
  unfold getBalanceModel at hb
  split at hb
  · cases hb
  · split at hb
    · cases hb
    · split at hb
      · cases hb
      · split at hb
        · cases hb
        · dsimp only at hb
          split at hb
          · split at hb <;> (cases hb; exact ⟨rfl, rfl⟩)
          · cases hb; exact ⟨rfl, rfl⟩

/-- A concrete connected facade state with no cached balance. -/
def stNoBalance : FacadeState :=
  { isInitialized := true
    connectionInfo :=
      { isConnected := true
        address := some "oct1w" } }

theorem balance_sum_invariant_witness :
    createDefaultBalance 7 =
      { total := 7, «public» := 7, «private» := 0, currency := "OCT" } ∧
    (createDefaultBalance 7).«public» + (createDefaultBalance 7).«private»
      = (createDefaultBalance 7).total ∧
    (∀ b : Balance,
      (getBalanceModel stNoBalance
        (Except.ok ((3 : Rat), (4 : Rat)))).2.2 = Except.ok b →
      b.«public» + b.«private» = b.total ∧ b.currency = "OCT") :=
  balance_sum_invariant 7 3 4 stNoBalance (by norm_num)

/-! ## C8: connect overwrites wholesale on success, untouched on failure -/

/-- C8: with an initialized facade, a successful connect call rebuilds
the cached ConnectionInfo wholesale from the peer result (address,
public key, balance, network, connection timestamp) and emits one
connect event carrying that data; a failed call leaves the cache exactly
as it was, emits nothing, and surfaces a typed error. -/
theorem connect_state_update (st : FacadeState) (now : Nat)
    (res : Except ThrownError ConnectResult)
    (hinit : st.isInitialized = true) :
    (∀ r : ConnectResult, res = Except.ok r →
      connectModel st now res =
        ({ st with connectionInfo :=
             { isConnected := true
               address := some r.address
               publicKey := r.publicKey
               balance := some r.balance
               networkInfo := some r.networkInfo
               connectedAt := some now } },
         [FacadeEvent.connectEv
           { address := r.address, publicKey := r.publicKey,
             balance := r.balance, networkInfo := r.networkInfo,
             permissions := r.permissions }],
         Except.ok
           { address := r.address, publicKey := r.publicKey,
             balance := r.balance, networkInfo := r.networkInfo,
             permissions := r.permissions })) ∧
    (∀ e : ThrownError, res = Except.error e →
      (connectModel st now res).1 = st ∧
      (connectModel st now res).2.1 = [] ∧
      ∃ we : WalletError, (connectModel st now res).2.2 = Except.error we) := by
  constructor
  · rintro r rfl
    simp [connectModel, hinit]
  · rintro e rfl
    cases e with
    | walletErr w => exact ⟨by simp [connectModel, hinit], by simp [connectModel, hinit],
        w, by simp [connectModel, hinit]⟩
    | otherErr m => exact ⟨by simp [connectModel, hinit], by simp [connectModel, hinit],
        { code := ErrorCode.CONNECTION_REFUSED, message := "Failed to connect to wallet" },
        by simp [connectModel, hinit]⟩

/-- A concrete network used by witnesses. -/
def netW : NetworkInfo :=
  { id := "testnet"
    name := "Octra Testnet"
    rpcUrl := "https://testnet.octra.network"
    color := "#f59e0b"
    isTestnet := true }

/-- A concrete successful connect result used by witnesses. -/
def connResW : ConnectResult :=
  { address := "oct1abc"
    publicKey := some "pk"
    balance := createDefaultBalance 150
    networkInfo := netW
    permissions := ["read_balance"] }

theorem connect_state_update_witness :
    (∀ r : ConnectResult, (Except.ok connResW : Except ThrownError ConnectResult) = Except.ok r →
      connectModel stNoBalance 42 (Except.ok connResW) =
        ({ stNoBalance with connectionInfo :=
             { isConnected := true
               address := some r.address
               publicKey := r.publicKey
               balance := some r.balance
               networkInfo := some r.networkInfo
               connectedAt := some 42 } },
         [FacadeEvent.connectEv
           { address := r.address, publicKey := r.publicKey,
             balance := r.balance, networkInfo := r.networkInfo,
             permissions := r.permissions }],
         Except.ok
           { address := r.address, publicKey := r.publicKey,
             balance := r.balance, networkInfo := r.networkInfo,
             permissions := r.permissions })) ∧
    (∀ e : ThrownError, (Except.ok connResW : Except ThrownError ConnectResult) = Except.error e →
      (connectModel stNoBalance 42 (Except.ok connResW)).1 = stNoBalance ∧
      (connectModel stNoBalance 42 (Except.ok connResW)).2.1 = [] ∧
      ∃ we : WalletError,
        (connectModel stNoBalance 42 (Except.ok connResW)).2.2 = Except.error we) :=
  connect_state_update stNoBalance 42 (Except.ok connResW) rfl

/-! ## C2: inbound message gating -/

lemma onWindowMessage_blockedOrigin (env : Env) (now : Nat)
    (allowedOrigin : String) (s : CommState) (m : MessageEvent)
    (h : m.origin ≠ allowedOrigin) :
    onWindowMessage env now allowedOrigin s m =
      (s, none, none, ListenerOutcome.blockedOrigin) := by
  simp [onWindowMessage, h]

lemma onWindowMessage_blockedSource (env : Env) (now : Nat)
    (allowedOrigin : String) (s : CommState) (m : MessageEvent)
    (h1 : m.origin = allowedOrigin) (h2 : m.sourceIsSameWindow = false) :
    onWindowMessage env now allowedOrigin s m =
      (s, none, none, ListenerOutcome.blockedSource) := by
  simp [onWindowMessage, h1, h2]

lemma onWindowMessage_blockedMarker (env : Env) (now : Nat)
    (allowedOrigin : String) (s : CommState) (m : MessageEvent)
    (h1 : m.origin = allowedOrigin) (h2 : m.sourceIsSameWindow = true)
    (h3 : hasSdkMarker m = false) :
    onWindowMessage env now allowedOrigin s m =
      (s, none, none, ListenerOutcome.blockedMarker) := by
  simp [onWindowMessage, h1, h2, h3]

/-- C2: an inbound window message failing origin, source-window or
SDK-marker gating (checked in that order) is dropped with the state
unchanged, no settlement of any pending request, and no emitted event;
conversely any message routed as a response or as an event passed all
three checks. -/
theorem adapter_origin_gating (env : Env) (now : Nat)
    (allowedOrigin : String) (s : CommState) (m : MessageEvent) :
    (m.origin ≠ allowedOrigin →
      onWindowMessage env now allowedOrigin s m =
        (s, none, none, ListenerOutcome.blockedOrigin)) ∧
    (m.origin = allowedOrigin → m.sourceIsSameWindow = false →
      onWindowMessage env now allowedOrigin s m =
        (s, none, none, ListenerOutcome.blockedSource)) ∧
    (m.origin = allowedOrigin → m.sourceIsSameWindow = true →
     hasSdkMarker m = false →
      onWindowMessage env now allowedOrigin s m =
        (s, none, none, ListenerOutcome.blockedMarker)) ∧
    ((onWindowMessage env now allowedOrigin s m).2.2.2 = ListenerOutcome.routedResponse ∨
     (onWindowMessage env now allowedOrigin s m).2.2.2 = ListenerOutcome.routedEvent →
      m.origin = allowedOrigin ∧ m.sourceIsSameWindow = true ∧
      hasSdkMarker m = true) := by
  refine ⟨fun h => onWindowMessage_blockedOrigin env now allowedOrigin s m h,
    fun h1 h2 => onWindowMessage_blockedSource env now allowedOrigin s m h1 h2,
    fun h1 h2 h3 => onWindowMessage_blockedMarker env now allowedOrigin s m h1 h2 h3,
    ?_⟩
  intro hrout
  by_cases h1 : m.origin = allowedOrigin
  · by_cases h2 : m.sourceIsSameWindow
    · by_cases h3 : hasSdkMarker m
      · exact ⟨h1, h2, h3⟩
      · rw [onWindowMessage_blockedMarker env now allowedOrigin s m h1 h2
          (by simpa using h3)] at hrout
        rcases hrout with h | h <;> cases h
    · rw [onWindowMessage_blockedSource env now allowedOrigin s m h1
        (by simpa using h2)] at hrout
      rcases hrout with h | h <;> cases h
  · rw [onWindowMessage_blockedOrigin env now allowedOrigin s m h1] at hrout
    rcases hrout with h | h <;> cases h

/-- A communicator state with one pending request, id reqA. -/
def sOnePending : CommState :=
  { pendingRequests := [("reqA", { timeout := 7, retryCount := 0 })]
    isInitialized := true
    isExtensionAvailableState := true }

/-- A forged message from a foreign origin carrying a response for the
pending id. -/
def forgedMsg : MessageEvent :=
  { origin := "https://evil.example"
    sourceIsSameWindow := true
    data := some { source := some BRIDGE_MARKER
                   response := some { id := "reqA", success := true } } }

theorem adapter_origin_gating_witness :
    onWindowMessage ⟨true, true, true⟩ 0 "https://dapp.example" sOnePending forgedMsg =
      (sOnePending, none, none, ListenerOutcome.blockedOrigin) :=
  (adapter_origin_gating ⟨true, true, true⟩ 0 "https://dapp.example"
    sOnePending forgedMsg).1 (by decide)

/-! ## C4: timeout removes the entry and rejects with diagnostics -/

/-- C4: each request is bounded by a caller-supplied or default
(30000 ms) timeout; on expiry with the id still pending, the entry is
removed from the pending map and the promise is rejected with the
timeout error carrying the method name, the stored retry count and the
current availability diagnostics. -/
theorem timeout_rejection (env : Env) (s : CommState)
    (requestId method : String) (params : Params) (timeout : Nat)
    (p : PendingEntry) (h : lookupPending s requestId = some p) :
    timeoutFire env s requestId method params timeout =
      (erasePending s requestId,
       some (Settlement.rejected requestId
         { code := ErrorCode.NETWORK_ERROR
           message := "Request timeout after " ++ toString timeout ++ "ms"
           details := some { method := some method
                             params := some params
                             requestId := some requestId
                             retryCount := some p.retryCount
                             extensionState := some (getExtensionDiagnostics env s) } })) ∧
    lookupPending (timeoutFire env s requestId method params timeout).1 requestId = none ∧
    SENDREQUEST_DEFAULT_TIMEOUT = 30000 := by
  refine ⟨by simp [timeoutFire, h], ?_, rfl⟩
  simp only [timeoutFire, h]
  exact lookupPending_erase s requestId

theorem timeout_rejection_witness :
    (timeoutFire ⟨true, true, true⟩ sOnePending "reqA" "getBalance" "{}" 30000 =
      (erasePending sOnePending "reqA",
       some (Settlement.rejected "reqA"
         { code := ErrorCode.NETWORK_ERROR
           message := "Request timeout after " ++ toString 30000 ++ "ms"
           details := some { method := some "getBalance"
                             params := some "{}"
                             requestId := some "reqA"
                             retryCount := some (0 : Nat)
                             extensionState := some (getExtensionDiagnostics
                               ⟨true, true, true⟩ sOnePending) } }))) ∧
    lookupPending (timeoutFire ⟨true, true, true⟩ sOnePending "reqA"
      "getBalance" "{}" 30000).1 "reqA" = none ∧
    SENDREQUEST_DEFAULT_TIMEOUT = 30000 :=
  timeout_rejection ⟨true, true, true⟩ sOnePending "reqA" "getBalance" "{}"
    30000 { timeout := 7, retryCount := 0 } (by decide)

/-! ## C6: balance observation diffing -/

/-- Cached balance with total 100 used by the C6 counterexample. -/
def bSame : Balance :=
  { «public» := 100, «private» := 0, total := 100, currency := "OCT" }

/-- A connected facade state that already caches `bSame`. -/
def stCachedBalance : FacadeState :=
  { isInitialized := true
    connectionInfo :=
      { isConnected := true
        address := some "oct1abc"
        balance := some bSame } }

/-- C6 counterexample: a peer-originated balance push whose total equals
the cached total still emits a balanceChanged event, so the claimed
emitted-iff-different rule fails for balance pushes (the handler emits
unconditionally, with no diff). -/
theorem balance_push_counterexample :
    stCachedBalance.connectionInfo.balance = some bSame ∧
    (handleBalanceChangedModel stCachedBalance bSame).1.connectionInfo.balance
      = some bSame ∧
    (handleBalanceChangedModel stCachedBalance bSame).2.length = 1 := by
  refine ⟨rfl, rfl, rfl⟩

/-- C6 (amended): the freshly observed balance always replaces the
cache; a `getBalance` refresh emits balanceChanged exactly when a cached
balance existed and its total differs from the new total (a first
observation with an empty cache emits nothing); a peer-originated
balance push, however, replaces the cache and always emits exactly one
balanceChanged event, without diffing. -/
theorem balance_observation_amended (st : FacadeState) (pub priv : Rat)
    (b : Balance) (a : String)
    (hinit : st.isInitialized = true)
    (hconn : st.connectionInfo.isConnected = true)
    (haddr : st.connectionInfo.address = some a) :
    (getBalanceModel st (Except.ok (pub, priv))).1.connectionInfo.balance =
      some { «public» := pub, «private» := priv,
             total := pub + priv, currency := "OCT" } ∧
    ((getBalanceModel st (Except.ok (pub, priv))).2.1 ≠ [] ↔
      ∃ prevb : Balance, st.connectionInfo.balance = some prevb ∧
        prevb.total ≠ pub + priv) ∧
    (handleBalanceChangedModel st b).1.connectionInfo.balance = some b ∧
    (handleBalanceChangedModel st b).2 =
      [FacadeEvent.balanceChangedEv
        { address := st.connectionInfo.address
          previousBalance := st.connectionInfo.balance
          newBalance := b }] := by
  refine ⟨?_, ?_, rfl, rfl⟩
  · unfold getBalanceModel
    simp only [hinit, hconn, haddr]
    cases hbal : st.connectionInfo.balance with
    | none => simp
    | some prevb =>
      by_cases hne : prevb.total = pub + priv
      · simp [hne]
      · simp [hne]
  · unfold getBalanceModel
    simp only [hinit, hconn, haddr]
    cases hbal : st.connectionInfo.balance with
    | none => simp
    | some prevb =>
      by_cases hne : prevb.total = pub + priv
      · simp [hne]
      · simp [hne]

theorem balance_observation_amended_witness :
    (getBalanceModel stCachedBalance
        (Except.ok ((150 : Rat), (50 : Rat)))).1.connectionInfo.balance =
      some { «public» := 150, «private» := 50,
             total := 150 + 50, currency := "OCT" } ∧
    ((getBalanceModel stCachedBalance
        (Except.ok ((150 : Rat), (50 : Rat)))).2.1 ≠ [] ↔
      ∃ prevb : Balance, stCachedBalance.connectionInfo.balance = some prevb ∧
        prevb.total ≠ 150 + 50) ∧
    (handleBalanceChangedModel stCachedBalance bSame).1.connectionInfo.balance
      = some bSame ∧
    (handleBalanceChangedModel stCachedBalance bSame).2 =
      [FacadeEvent.balanceChangedEv
        { address := stCachedBalance.connectionInfo.address
          previousBalance := stCachedBalance.connectionInfo.balance
          newBalance := bSame }] :=
  balance_observation_amended stCachedBalance 150 50 bSame "oct1abc" rfl rfl rfl

/-! ## C3: admission control -/

lemma attemptsGo_dispatched_ne_nil (idSupply : Nat → String)
    (outcome : Nat → Except WalletError RespData)
    (method : String) (params : Params) (now baseDelay attempt countdown : Nat) :
    (attemptsGo idSupply outcome method params now
      baseDelay attempt countdown).2.1 ≠ [] := by
  cases countdown with
  | zero => simp [attemptsGo]
  | succ k => cases h : outcome attempt <;> simp [attemptsGo, h]

/-- C3: with the extension reachable, admission control rejects with a
RATE_LIMIT_EXCEEDED error and writes nothing to the transport whenever
50 or more requests are pending, or 20 or more admissions fall inside
the trailing 1000 ms window; once every recorded timestamp has aged out
of the window (and pending is below the ceiling) the call is admitted
and dispatched. -/
theorem admission_control (env : Env) (now : Nat) (s : CommState)
    (method : String) (params : Params) (maxRetries timeout : Nat)
    (idSupply : Nat → String) (outcome : Nat → Except WalletError RespData)
    (hctx : hasExtensionContext env = true)
    (havail : s.isExtensionAvailableState = true) :
    (MAX_CONCURRENT_REQUESTS ≤ s.pendingRequests.length →
      (sendRequestWithRetryModel env now s method params maxRetries timeout
        idSupply outcome).2.2.dispatched = [] ∧
      ∃ e : WalletError,
        (sendRequestWithRetryModel env now s method params maxRetries timeout
          idSupply outcome).1 = Except.error e ∧
        e.code = ErrorCode.RATE_LIMIT_EXCEEDED) ∧
    (s.pendingRequests.length < MAX_CONCURRENT_REQUESTS →
     MAX_REQUESTS_PER_WINDOW ≤ (s.requestTimestamps.filter
        (fun t => decide (now - t < RATE_LIMIT_WINDOW))).length →
      (sendRequestWithRetryModel env now s method params maxRetries timeout
        idSupply outcome).2.2.dispatched = [] ∧
      ∃ e : WalletError,
        (sendRequestWithRetryModel env now s method params maxRetries timeout
          idSupply outcome).1 = Except.error e ∧
        e.code = ErrorCode.RATE_LIMIT_EXCEEDED) ∧
    (s.pendingRequests.length < MAX_CONCURRENT_REQUESTS →
     (∀ t ∈ s.requestTimestamps, t + RATE_LIMIT_WINDOW ≤ now) →
      checkRateLimit now s = ({ s with requestTimestamps := [now] }, none) ∧
      (sendRequestWithRetryModel env now s method params maxRetries timeout
        idSupply outcome).2.2.rateChecks = 1 ∧
      (sendRequestWithRetryModel env now s method params maxRetries timeout
        idSupply outcome).2.2.dispatched ≠ []) := by
  have havailw : availabilityAfterWait env s = true := by
    simp [availabilityAfterWait, havail]
  refine ⟨?_, ?_, ?_⟩
  · intro hge
    have hc : checkRateLimit now s =
        (s, some { code := ErrorCode.RATE_LIMIT_EXCEEDED
                   message := "Too many concurrent requests (max: " ++
                     toString MAX_CONCURRENT_REQUESTS ++ ")" }) := by
      simp [checkRateLimit, hge]
    have hr : sendRequestWithRetryModel env now s method params maxRetries
        timeout idSupply outcome =
        (Except.error { code := ErrorCode.RATE_LIMIT_EXCEEDED
                        message := "Too many concurrent requests (max: " ++
                          toString MAX_CONCURRENT_REQUESTS ++ ")" },
         s, { rateChecks := 1, dispatched := [], delays := [] }) := by
      simp [sendRequestWithRetryModel, hctx, havailw, hc]
    rw [hr]
    exact ⟨rfl, _, rfl, rfl⟩
  · intro hlt hwin
    have hc : checkRateLimit now s =
        ({ s with requestTimestamps :=
             s.requestTimestamps.filter (fun t => decide (now - t < RATE_LIMIT_WINDOW)) },
         some { code := ErrorCode.RATE_LIMIT_EXCEEDED
                message := "Too many requests per second (max: " ++
                  toString MAX_REQUESTS_PER_WINDOW ++ " per " ++
                  toString RATE_LIMIT_WINDOW ++ "ms)" }) := by
      simp [checkRateLimit, Nat.not_le.mpr hlt, hwin]
    have hr : sendRequestWithRetryModel env now s method params maxRetries
        timeout idSupply outcome =
        (Except.error { code := ErrorCode.RATE_LIMIT_EXCEEDED
                        message := "Too many requests per second (max: " ++
                          toString MAX_REQUESTS_PER_WINDOW ++ " per " ++
                          toString RATE_LIMIT_WINDOW ++ "ms)" },
         { s with requestTimestamps :=
             s.requestTimestamps.filter (fun t => decide (now - t < RATE_LIMIT_WINDOW)) },
         { rateChecks := 1, dispatched := [], delays := [] }) := by
      simp [sendRequestWithRetryModel, hctx, havailw, hc]
    rw [hr]
    exact ⟨rfl, _, rfl, rfl⟩
  · intro hlt hold
    have hfil : s.requestTimestamps.filter
        (fun t => decide (now - t < RATE_LIMIT_WINDOW)) = [] := by
      rw [List.filter_eq_nil_iff]
      intro t ht
      have := hold t ht
      simp only [decide_eq_true_eq]
      omega
    have hc : checkRateLimit now s =
        ({ s with requestTimestamps := [now] }, none) := by
      simp [checkRateLimit, Nat.not_le.mpr hlt, hfil, MAX_REQUESTS_PER_WINDOW]
    have hr : sendRequestWithRetryModel env now s method params maxRetries
        timeout idSupply outcome =
        ((attemptsGo idSupply outcome method params now 1000 0 maxRetries).1,
         { s with requestTimestamps := [now] },
         { rateChecks := 1
           dispatched := (attemptsGo idSupply outcome method params now 1000 0 maxRetries).2.1
           delays := (attemptsGo idSupply outcome method params now 1000 0 maxRetries).2.2 }) := by
      simp [sendRequestWithRetryModel, hctx, havailw, hc]
    refine ⟨hc, ?_, ?_⟩
    · rw [hr]
    · rw [hr]
      exact attemptsGo_dispatched_ne_nil idSupply outcome method params now 1000 0 maxRetries

/-- Fifty distinct pending entries, to exercise the concurrency ceiling. -/
def sFiftyPending : CommState :=
  { pendingRequests := (List.range 50).map
      (fun n => ("req" ++ toString n, { timeout := n, retryCount := 0 }))
    isInitialized := true
    isExtensionAvailableState := true
    requestTimestamps := [100] }

theorem admission_control_witness :
    (MAX_CONCURRENT_REQUESTS ≤ sFiftyPending.pendingRequests.length →
      (sendRequestWithRetryModel ⟨true, true, true⟩ 2000 sFiftyPending "ping" "{}"
        3 30000 (fun _ => "idX") (fun _ => Except.ok "pong")).2.2.dispatched = [] ∧
      ∃ e : WalletError,
        (sendRequestWithRetryModel ⟨true, true, true⟩ 2000 sFiftyPending "ping" "{}"
          3 30000 (fun _ => "idX") (fun _ => Except.ok "pong")).1 = Except.error e ∧
        e.code = ErrorCode.RATE_LIMIT_EXCEEDED) ∧
    (sFiftyPending.pendingRequests.length < MAX_CONCURRENT_REQUESTS →
     MAX_REQUESTS_PER_WINDOW ≤ (sFiftyPending.requestTimestamps.filter
        (fun t => decide (2000 - t < RATE_LIMIT_WINDOW))).length →
      (sendRequestWithRetryModel ⟨true, true, true⟩ 2000 sFiftyPending "ping" "{}"
        3 30000 (fun _ => "idX") (fun _ => Except.ok "pong")).2.2.dispatched = [] ∧
      ∃ e : WalletError,
        (sendRequestWithRetryModel ⟨true, true, true⟩ 2000 sFiftyPending "ping" "{}"
          3 30000 (fun _ => "idX") (fun _ => Except.ok "pong")).1 = Except.error e ∧
        e.code = ErrorCode.RATE_LIMIT_EXCEEDED) ∧
    (sFiftyPending.pendingRequests.length < MAX_CONCURRENT_REQUESTS →
     (∀ t ∈ sFiftyPending.requestTimestamps, t + RATE_LIMIT_WINDOW ≤ 2000) →
      checkRateLimit 2000 sFiftyPending =
        ({ sFiftyPending with requestTimestamps := [2000] }, none) ∧
      (sendRequestWithRetryModel ⟨true, true, true⟩ 2000 sFiftyPending "ping" "{}"
        3 30000 (fun _ => "idX") (fun _ => Except.ok "pong")).2.2.rateChecks = 1 ∧
      (sendRequestWithRetryModel ⟨true, true, true⟩ 2000 sFiftyPending "ping" "{}"
        3 30000 (fun _ => "idX") (fun _ => Except.ok "pong")).2.2.dispatched ≠ []) :=
  admission_control ⟨true, true, true⟩ 2000 sFiftyPending "ping" "{}" 3 30000
    (fun _ => "idX") (fun _ => Except.ok "pong") (by decide) (by decide)

/-! ## C5: retry with backoff -/

lemma attemptsGo_all_error (idSupply : Nat → String) (errs : Nat → WalletError)
    (method : String) (params : Params) (now baseDelay : Nat) :
    ∀ countdown attempt : Nat,
      attemptsGo idSupply (fun n => Except.error (errs n)) method params now
          baseDelay attempt countdown
        = (Except.error (errs (attempt + countdown)),
           (List.range' attempt (countdown + 1)).map (fun j =>
             { id := idSupply j, method := method,
               params := params, timestamp := now }),
           (List.range' attempt countdown).map (fun j => baseDelay * 2 ^ j)) := by
  intro countdown
  induction countdown with
  | zero =>
    intro attempt
    simp [attemptsGo]
  | succ k ih =>
    intro attempt
    have harith : attempt + (k + 1) = attempt + 1 + k := by omega
    rw [harith]
    simp only [attemptsGo, ih (attempt + 1)]
    rw [List.range'_succ attempt (k + 1) 1, List.range'_succ attempt k 1]
    simp

/-- Ready-to-dispatch communicator state used by C5 theorems. -/
def sReady : CommState := { isExtensionAvailableState := true }

/-- The attempt failure used by the C5 counterexample. -/
def errBoom : WalletError :=
  { code := ErrorCode.NETWORK_ERROR, message := "boom" }

/-- Identifier supply used by C5 theorems (injective by length). -/
def idSupplyW (n : Nat) : String := String.mk (List.replicate n 'i')

lemma idSupplyW_injective : Function.Injective idSupplyW := by
  intro a b h
  have hlen := congrArg (fun str => str.data.length) h
  simpa [idSupplyW] using hlen

/-- C5 counterexample: with the default 3 retries and every attempt
failing, four requests are dispatched but admission control ran exactly
once (before the first attempt), refuting the claim that each retry
re-enters the full admission-control path. -/
theorem retry_no_readmission_counterexample :
    (sendRequestWithRetryModel ⟨true, true, true⟩ 0 sReady "ping" "p" 3 30000
      idSupplyW (fun _ => Except.error errBoom)).2.2.dispatched.length = 4 ∧
    (sendRequestWithRetryModel ⟨true, true, true⟩ 0 sReady "ping" "p" 3 30000
      idSupplyW (fun _ => Except.error errBoom)).2.2.rateChecks = 1 ∧
    (sendRequestWithRetryModel ⟨true, true, true⟩ 0 sReady "ping" "p" 3 30000
        idSupplyW (fun _ => Except.error errBoom)).2.2.rateChecks ≠
      (sendRequestWithRetryModel ⟨true, true, true⟩ 0 sReady "ping" "p" 3 30000
        idSupplyW (fun _ => Except.error errBoom)).2.2.dispatched.length := by
  refine ⟨by decide, by decide, by decide⟩

/-- C5 (amended): when the underlying attempt keeps throwing, the call
is retried up to maxRetries times with backoff delays of
baseDelay * 2 ^ attempt (1000, 2000, 4000 ms for the defaults), each
retry re-enters the dispatch path with a freshly generated identifier
(pairwise distinct for an injective supply), and the caller observes the
failure of the last attempt; admission control, however, runs exactly
once, before the first attempt, and is not re-entered by retries. -/
theorem retry_backoff_amended (env : Env) (now : Nat) (s s' : CommState)
    (method : String) (params : Params) (maxRetries timeout : Nat)
    (idSupply : Nat → String) (errs : Nat → WalletError)
    (hctx : hasExtensionContext env = true)
    (havail : availabilityAfterWait env s = true)
    (hadm : checkRateLimit now s = (s', none)) :
    (sendRequestWithRetryModel env now s method params maxRetries timeout
      idSupply (fun n => Except.error (errs n))).1
        = Except.error (errs maxRetries) ∧
    (sendRequestWithRetryModel env now s method params maxRetries timeout
      idSupply (fun n => Except.error (errs n))).2.2.dispatched.map
        OutboundRequest.id = (List.range (maxRetries + 1)).map idSupply ∧
    (Function.Injective idSupply →
      ((sendRequestWithRetryModel env now s method params maxRetries timeout
        idSupply (fun n => Except.error (errs n))).2.2.dispatched.map
          OutboundRequest.id).Nodup) ∧
    (sendRequestWithRetryModel env now s method params maxRetries timeout
      idSupply (fun n => Except.error (errs n))).2.2.delays
        = (List.range maxRetries).map (fun k => 1000 * 2 ^ k) ∧
    (sendRequestWithRetryModel env now s method params maxRetries timeout
      idSupply (fun n => Except.error (errs n))).2.2.rateChecks = 1 := by
  have hgo := attemptsGo_all_error idSupply errs method params now 1000 maxRetries 0
  have hr : sendRequestWithRetryModel env now s method params maxRetries timeout
      idSupply (fun n => Except.error (errs n)) =
      (Except.error (errs maxRetries), s',
       { rateChecks := 1
         dispatched := (List.range' 0 (maxRetries + 1)).map (fun j =>
           { id := idSupply j, method := method,
             params := params, timestamp := now })
         delays := (List.range' 0 maxRetries).map (fun j => 1000 * 2 ^ j) }) := by
    simp only [sendRequestWithRetryModel, hctx, havail, hadm, hgo]
    simp
  rw [hr]
  refine ⟨rfl, ?_, ?_, ?_, rfl⟩
  · rw [List.map_map, List.range_eq_range']
    rfl
  · intro hinj
    have h1 : ((List.range (maxRetries + 1)).map idSupply).Nodup :=
      (List.nodup_range _).map hinj
    rw [List.range_eq_range'] at h1
    rw [List.map_map]
    exact h1
  · rw [List.range_eq_range']

theorem retry_backoff_amended_witness :
    (List.range 3).map (fun k => 1000 * 2 ^ k) = [1000, 2000, 4000] ∧
    Function.Injective idSupplyW ∧
    ((sendRequestWithRetryModel ⟨true, true, true⟩ 0 sReady "ping" "p" 3 30000
      idSupplyW (fun n => Except.error
        { code := ErrorCode.NETWORK_ERROR
          message := "attempt " ++ toString n ++ " failed" })).1
        = Except.error { code := ErrorCode.NETWORK_ERROR
                         message := "attempt " ++ toString 3 ++ " failed" } ∧
    (sendRequestWithRetryModel ⟨true, true, true⟩ 0 sReady "ping" "p" 3 30000
      idSupplyW (fun n => Except.error
        { code := ErrorCode.NETWORK_ERROR
          message := "attempt " ++ toString n ++ " failed" })).2.2.dispatched.map
        OutboundRequest.id = (List.range (3 + 1)).map idSupplyW ∧
    (Function.Injective idSupplyW →
      ((sendRequestWithRetryModel ⟨true, true, true⟩ 0 sReady "ping" "p" 3 30000
        idSupplyW (fun n => Except.error
          { code := ErrorCode.NETWORK_ERROR
            message := "attempt " ++ toString n ++ " failed" })).2.2.dispatched.map
          OutboundRequest.id).Nodup) ∧
    (sendRequestWithRetryModel ⟨true, true, true⟩ 0 sReady "ping" "p" 3 30000
      idSupplyW (fun n => Except.error
        { code := ErrorCode.NETWORK_ERROR
          message := "attempt " ++ toString n ++ " failed" })).2.2.delays
        = (List.range 3).map (fun k => 1000 * 2 ^ k) ∧
    (sendRequestWithRetryModel ⟨true, true, true⟩ 0 sReady "ping" "p" 3 30000
      idSupplyW (fun n => Except.error
        { code := ErrorCode.NETWORK_ERROR
          message := "attempt " ++ toString n ++ " failed" })).2.2.rateChecks = 1) :=
  ⟨by decide, idSupplyW_injective,
   retry_backoff_amended ⟨true, true, true⟩ 0 sReady
     { sReady with requestTimestamps := [0] } "ping" "p" 3 30000 idSupplyW
     (fun n => { code := ErrorCode.NETWORK_ERROR
                 message := "attempt " ++ toString n ++ " failed" })
     (by decide) (by decide) (by decide)⟩

/-! ## C9: cleanup -/

lemma sendRequest_inert (env : Env) (now : Nat) (s : CommState)
    (method : String) (params : Params) (maxRetries timeout : Nat)
    (idSupply : Nat → String) (outcome : Nat → Except WalletError RespData)
    (hail : availabilityAfterWait env s = false) :
    (sendRequestWithRetryModel env now s method params maxRetries timeout
      idSupply outcome).2.2.dispatched = [] ∧
    ∃ e : WalletError,
      (sendRequestWithRetryModel env now s method params maxRetries timeout
        idSupply outcome).1 = Except.error e ∧
      e.code = ErrorCode.EXTENSION_NOT_FOUND := by
  by_cases hctx : hasExtensionContext env = true
  · have hr : sendRequestWithRetryModel env now s method params maxRetries
        timeout idSupply outcome =
        (Except.error
          { code := ErrorCode.EXTENSION_NOT_FOUND
            message := "Extension not available for communication"
            details := some { method := some method, params := some params,
                              extensionState := some (getExtensionDiagnostics env s) } },
         s, { rateChecks := 0, dispatched := [], delays := [] }) := by
      simp [sendRequestWithRetryModel, hctx, hail]
    rw [hr]
    exact ⟨rfl, _, rfl, rfl⟩
  · have hctx' : hasExtensionContext env = false := by simpa using hctx
    have hr : sendRequestWithRetryModel env now s method params maxRetries
        timeout idSupply outcome =
        (Except.error
          { code := ErrorCode.EXTENSION_NOT_FOUND
            message := "0xio Wallet extension is not installed or available"
            details := some { method := some method, params := some params,
                              browserContext := true } },
         s, { rateChecks := 0, dispatched := [], delays := [] }) := by
      simp [sendRequestWithRetryModel, hctx']
    rw [hr]
    exact ⟨rfl, _, rfl, rfl⟩

/-- C9: cleanup rejects every currently pending entry with the terminal
cleanup error, clears every timer (per-request timeouts and the
detection interval), resets the communicator and facade state fully
(pending map emptied, initialization and availability flags cleared,
all listeners dropped, cache reset), is idempotent, and leaves the
component inert: a subsequent send dispatches nothing and fails with
EXTENSION_NOT_FOUND. -/
theorem cleanup_full_reset (fs : FacadeState) (cs : CommState)
    (env : Env) (now : Nat) (method : String) (params : Params)
    (maxRetries timeout : Nat) (idSupply : Nat → String)
    (outcome : Nat → Except WalletError RespData) :
    (facadeCleanupModel fs cs).2.2
      = cs.pendingRequests.map (fun p => Settlement.rejected p.1 cleanupError) ∧
    cleanupError = { code := ErrorCode.UNKNOWN_ERROR
                     message := "SDK cleanup called"
                     details := none } ∧
    activeTimerCount (facadeCleanupModel fs cs).2.1 = 0 ∧
    (facadeCleanupModel fs cs).2.1.pendingRequests = [] ∧
    (facadeCleanupModel fs cs).2.1.isInitialized = false ∧
    (facadeCleanupModel fs cs).2.1.isExtensionAvailableState = false ∧
    (facadeCleanupModel fs cs).2.1.listeners = [] ∧
    (facadeCleanupModel fs cs).1
      = { isInitialized := false
          connectionInfo := { isConnected := false }
          listeners := [] } ∧
    facadeCleanupModel (facadeCleanupModel fs cs).1 (facadeCleanupModel fs cs).2.1
      = ((facadeCleanupModel fs cs).1, (facadeCleanupModel fs cs).2.1, []) ∧
    ((sendRequestWithRetryModel env now (facadeCleanupModel fs cs).2.1 method
      params maxRetries timeout idSupply outcome).2.2.dispatched = [] ∧
    ∃ e : WalletError,
      (sendRequestWithRetryModel env now (facadeCleanupModel fs cs).2.1 method
        params maxRetries timeout idSupply outcome).1 = Except.error e ∧
      e.code = ErrorCode.EXTENSION_NOT_FOUND) := by
  refine ⟨rfl, rfl, rfl, rfl, rfl, rfl, rfl, rfl, rfl, ?_⟩
  exact sendRequest_inert env now (facadeCleanupModel fs cs).2.1 method params
    maxRetries timeout idSupply outcome rfl

/-! ## C1: at-most-once settlement per request id -/

lemma nodup_keys_erase (s : CommState) (id : String)
    (hnd : (keys s).Nodup) : (keys (erasePending s id)).Nodup := by
  have hsub : List.Sublist (keys (erasePending s id)) (keys s) :=
    (List.filter_sublist s.pendingRequests).map Prod.fst
  exact hnd.sublist hsub

lemma not_mem_keys_erase (s : CommState) (id : String) :
    id ∉ keys (erasePending s id) := by
  unfold keys erasePending
  simp only [List.mem_map, List.mem_filter, Bool.not_eq_true', beq_eq_false_iff_ne]
  rintro ⟨p, ⟨_, hne⟩, rfl⟩
  exact hne rfl

lemma mem_keys_erase_ne (s : CommState) (id x : String) (hne : x ≠ id) :
    (x ∈ keys (erasePending s id)) ↔ x ∈ keys s := by
  unfold keys erasePending
  simp only [List.mem_map, List.mem_filter, Bool.not_eq_true', beq_eq_false_iff_ne]
  constructor
  · rintro ⟨p, ⟨hp, _⟩, rfl⟩
    exact ⟨p, hp, rfl⟩
  · rintro ⟨p, hp, rfl⟩
    exact ⟨p, ⟨hp, hne⟩, rfl⟩

lemma mem_keys_of_lookup (s : CommState) (id : String) (p : PendingEntry)
    (h : lookupPending s id = some p) : id ∈ keys s := by
  by_contra hmem
  have hn := (lookupPending_eq_none_iff s id).mpr hmem
  rw [h] at hn
  cases hn

lemma pendingFlag_erase_self (s : CommState) (id : String) :
    pendingFlag (erasePending s id) id = 0 := by
  unfold pendingFlag
  simp [not_mem_keys_erase]

lemma pendingFlag_erase_ne (s : CommState) (id x : String) (hne : x ≠ id) :
    pendingFlag (erasePending s id) x = pendingFlag s x := by
  unfold pendingFlag
  simp only [mem_keys_erase_ne s id x hne]

lemma settle_shape_conservation (s : CommState) (rid id : String)
    (st : Settlement) (hsid : st.sid = rid) (hmem : rid ∈ keys s) :
    settlementsFor id [st] + pendingFlag (erasePending s rid) id
      = pendingFlag s id := by
  by_cases hid : rid = id
  · subst hid
    have h1 : settlementsFor rid [st] = 1 := by
      simp [settlementsFor, hsid]
    have h2 : pendingFlag s rid = 1 := by
      unfold pendingFlag
      simp [hmem]
    rw [h1, pendingFlag_erase_self, h2]
  · have h1 : settlementsFor id [st] = 0 := by
      simp [settlementsFor, hsid, hid]
    rw [h1, pendingFlag_erase_ne s rid id (fun h => hid h.symm)]
    omega

lemma handleResp_conservation (env : Env) (now : Nat) (s : CommState)
    (r : ExtensionResponse) (id : String) :
    settlementsFor id (handleExtensionResponse env now s r).2.1.toList +
      pendingFlag (handleExtensionResponse env now s r).1 id
      = pendingFlag s id := by
  unfold handleExtensionResponse
  cases hl : lookupPending s r.id with
  | none => simp [settlementsFor]
  | some p =>
    have hmem := mem_keys_of_lookup s r.id p hl
    dsimp only
    split
    · exact settle_shape_conservation s r.id id _ rfl hmem
    · split
      · exact settle_shape_conservation s r.id id _ rfl hmem
      · exact settle_shape_conservation s r.id id _ rfl hmem

lemma timeout_conservation (env : Env) (s : CommState)
    (requestId method : String) (params : Params) (timeout : Nat)
    (id : String) :
    settlementsFor id (timeoutFire env s requestId method params timeout).2.toList +
      pendingFlag (timeoutFire env s requestId method params timeout).1 id
      = pendingFlag s id := by
  unfold timeoutFire
  cases hl : lookupPending s requestId with
  | none => simp [settlementsFor]
  | some p =>
    have hmem := mem_keys_of_lookup s requestId p hl
    exact settle_shape_conservation s requestId id _ rfl hmem

lemma cleanup_conservation (s : CommState) (id : String)
    (hnd : (keys s).Nodup) :
    settlementsFor id (communicatorCleanup s).2 +
      pendingFlag (communicatorCleanup s).1 id = pendingFlag s id := by
  unfold communicatorCleanup settlementsFor
  have hflag0 : pendingFlag
      { pendingRequests := ([] : List (String × PendingEntry))
        isInitialized := false
        isExtensionAvailableState := false
        requestTimestamps := s.requestTimestamps
        extensionDetectionInterval := none
        listeners := removeAllListeners s.listeners } id = 0 := by
    unfold pendingFlag keys
    simp
  rw [hflag0, List.countP_map]
  have hcomp : ((fun st : Settlement => st.sid == id) ∘
      (fun p : String × PendingEntry => Settlement.rejected p.1 cleanupError))
      = fun p : String × PendingEntry => p.1 == id := rfl
  rw [hcomp]
  have hcount : List.countP (fun p : String × PendingEntry => p.1 == id)
      s.pendingRequests = (keys s).count id := by
    unfold keys
    rw [List.count_eq_countP, List.countP_map]
    rfl
  rw [hcount]
  by_cases hmem : id ∈ keys s
  · rw [List.count_eq_one_of_mem hnd hmem]
    unfold pendingFlag
    simp [hmem]
  · rw [List.count_eq_zero_of_not_mem hmem]
    unfold pendingFlag
    simp [hmem]

lemma corrStep_conservation (env : Env) (s : CommState) (e : CorrEvent)
    (id : String) (hnd : (keys s).Nodup) :
    settlementsFor id (corrStep env s e).2 +
      pendingFlag (corrStep env s e).1 id = pendingFlag s id := by
  cases e with
  | response now r => exact handleResp_conservation env now s r id
  | timerFired requestId method params timeout =>
    exact timeout_conservation env s requestId method params timeout id
  | cleanupEv => exact cleanup_conservation s id hnd

lemma corrStep_nodup (env : Env) (s : CommState) (e : CorrEvent)
    (hnd : (keys s).Nodup) : (keys (corrStep env s e).1).Nodup := by
  cases e with
  | response now r =>
    unfold corrStep handleExtensionResponse
    cases hl : lookupPending s r.id with
    | none =>
      simp only [hl]
      exact hnd
    | some p =>
      simp only [hl]
      split
      · exact nodup_keys_erase s r.id hnd
      · split
        · exact nodup_keys_erase s r.id hnd
        · exact nodup_keys_erase s r.id hnd
  | timerFired requestId method params timeout =>
    unfold corrStep timeoutFire
    cases hl : lookupPending s requestId with
    | none =>
      simp only [hl]
      exact hnd
    | some p =>
      simp only [hl]
      exact nodup_keys_erase s requestId hnd
  | cleanupEv =>
    unfold corrStep communicatorCleanup keys
    simp

lemma runEvents_conservation (env : Env) (id : String) :
    ∀ (evs : List CorrEvent) (s : CommState), (keys s).Nodup →
      settlementsFor id (runEvents env s evs).2 +
        pendingFlag (runEvents env s evs).1 id = pendingFlag s id
  | [], s, _ => by simp [runEvents, settlementsFor]
  | e :: evs, s, hnd => by
    have h1 := corrStep_conservation env s e id hnd
    have h2 := runEvents_conservation env id evs (corrStep env s e).1
      (corrStep_nodup env s e hnd)
    simp only [runEvents]
    unfold settlementsFor at *
    rw [List.countP_append]
    omega

lemma runEvents_append_fst (env : Env) :
    ∀ (l1 : List CorrEvent) (s : CommState) (l2 : List CorrEvent),
      (runEvents env s (l1 ++ l2)).1 = (runEvents env (runEvents env s l1).1 l2).1
  | [], s, l2 => by simp [runEvents]
  | e :: l1, s, l2 => by
    simp only [List.cons_append, runEvents]
    exact runEvents_append_fst env l1 (corrStep env s e).1 l2

lemma pendingFlag_after_cleanup_run (env : Env) (s : CommState)
    (evs : List CorrEvent) (id : String) :
    pendingFlag (runEvents env s (evs ++ [CorrEvent.cleanupEv])).1 id = 0 := by
  rw [runEvents_append_fst]
  unfold pendingFlag keys
  simp [runEvents, corrStep, communicatorCleanup]

/-- C1: settlements are conserved: over any sequence of inbound
responses, timeout firings and cleanups, the settlements fired for a
request id plus its remaining pending registration equal its initial
registration; hence each id settles at most once, an id never registered
settles zero times, an id that was pending settles exactly once by the
time cleanup runs, and an inbound response whose id is not in the
pending map leaves the state unchanged, settles nothing, and is merely
logged as an unknown-id warning. -/
theorem correlator_settles_exactly_once (env : Env) (s : CommState)
    (evs : List CorrEvent) (id : String) (now : Nat) (r : ExtensionResponse)
    (hnd : (keys s).Nodup) :
    settlementsFor id (runEvents env s evs).2 +
      pendingFlag (runEvents env s evs).1 id = pendingFlag s id ∧
    settlementsFor id (runEvents env s evs).2 ≤ 1 ∧
    (id ∉ keys s → settlementsFor id (runEvents env s evs).2 = 0) ∧
    settlementsFor id (runEvents env s (evs ++ [CorrEvent.cleanupEv])).2
      = pendingFlag s id ∧
    (lookupPending s r.id = none →
      handleExtensionResponse env now s r
        = (s, none, some (WarnLog.unknownRequestId r.id))) := by
  have hc := runEvents_conservation env id evs s hnd
  refine ⟨hc, ?_, ?_, ?_, ?_⟩
  · have hle := pendingFlag_le_one s id
    omega
  · intro hmem
    have hflag : pendingFlag s id = 0 := by
      unfold pendingFlag
      simp [hmem]
    omega
  · have hc2 := runEvents_conservation env id
      (evs ++ [CorrEvent.cleanupEv]) s hnd
    rw [pendingFlag_after_cleanup_run] at hc2
    omega
  · intro hl
    unfold handleExtensionResponse
    rw [hl]

/-- The response the extension sends for the pending id of
`sOnePending`, delivered twice in the C1 witness. -/
def respA : ExtensionResponse :=
  { id := "reqA", success := true, data := some "ok" }

/-- A response for an id that was never registered. -/
def respGhost : ExtensionResponse :=
  { id := "ghost", success := true }

theorem correlator_settles_exactly_once_witness :
    settlementsFor "reqA" (runEvents ⟨true, true, true⟩ sOnePending
      [CorrEvent.response 5 respA, CorrEvent.response 6 respA]).2 +
      pendingFlag (runEvents ⟨true, true, true⟩ sOnePending
        [CorrEvent.response 5 respA, CorrEvent.response 6 respA]).1 "reqA"
      = pendingFlag sOnePending "reqA" ∧
    settlementsFor "reqA" (runEvents ⟨true, true, true⟩ sOnePending
      [CorrEvent.response 5 respA, CorrEvent.response 6 respA]).2 ≤ 1 ∧
    ("reqA" ∉ keys sOnePending →
      settlementsFor "reqA" (runEvents ⟨true, true, true⟩ sOnePending
        [CorrEvent.response 5 respA, CorrEvent.response 6 respA]).2 = 0) ∧
    settlementsFor "reqA" (runEvents ⟨true, true, true⟩ sOnePending
      ([CorrEvent.response 5 respA, CorrEvent.response 6 respA] ++
        [CorrEvent.cleanupEv])).2 = pendingFlag sOnePending "reqA" ∧
    (lookupPending sOnePending respGhost.id = none →
      handleExtensionResponse ⟨true, true, true⟩ 7 sOnePending respGhost
        = (sOnePending, none, some (WarnLog.unknownRequestId respGhost.id))) :=
  correlator_settles_exactly_once ⟨true, true, true⟩ sOnePending
    [CorrEvent.response 5 respA, CorrEvent.response 6 respA] "reqA" 7 respGhost
    (by decide)

end Oxio
